import Mathlib

/-!
Shallow embedding of the clay terminal UI song-list layer
(src/clay/ui/urwid/songlist.py and src/clay/ui/urwid/pages/album.py).
Pure data and state-transformer translations of the widget logic,
followed by theorems about the spec claims.
-/

namespace Clay

/-- The four item states from clay.ui.urwid.variables.States
(idle, loading, playing, paused), as used throughout songlist.py. -/
inductive States where
  | idle
  | loading
  | playing
  | paused
deriving DecidableEq, Repr

/-- Modelled from the spec: the external Track entity (clay.core, not under
src/): title, artist, album name, duration (ms), rating 0-5, explicit flag,
identifier. `oid` models Python object identity (two tracks are the same
Python object exactly when their `oid`s agree). -/
structure Track where
  oid : Nat
  id : Nat
  title : String
  artist : String
  album_name : String
  duration : Nat
  rating : Nat
  explicit_rating : Nat
deriving DecidableEq, Repr

/-- Modelled from the spec: Python `==` on the external Track class is object
identity (the spec describes item matching "by identity"). -/
def trackPyEq (a b : Track) : Bool :=
  a.oid == b.oid

/-- Modelled from the spec: the icon table Icons.ratings
(clay.ui.urwid.variables is not under src/); maps a 0-5 rating to a display
glyph. The exact glyphs are irrelevant to every claim. -/
def ratingIcon : Nat → String
  | 0 => ""
  | 1 => "v"
  | 2 => "."
  | 3 => "."
  | 4 => "."
  | 5 => "^"
  | _ => ""

/-- Modelled from the spec: the icon table Icons.explicit
(clay.ui.urwid.variables is not under src/). -/
def explicitIcon : Nat → String
  | 1 => "E"
  | _ => ""

/-- SongListItem (songlist.py:75-110): wraps one Track plus transient UI
state. `rating` and `explicit` are the icon strings computed in __init__;
`index` starts at 0 and is set by set_index; `state` starts idle. -/
structure SongListItem where
  track : Track
  rating : String
  explicit : String
  index : Nat
  state : States
  is_focused : Bool
deriving DecidableEq, Repr

/-- SongListItem.__init__ (songlist.py:90-110). -/
def mkSongListItem (t : Track) : SongListItem :=
  { track := t
    rating := ratingIcon t.rating
    explicit := explicitIcon t.explicit_rating
    index := 0
    state := States.idle
    is_focused := false }

/-- SongListItem.full_title (songlist.py:139-148):
"{artist} - {title} {rating-icon}". -/
def SongListItem.full_title (it : SongListItem) : String :=
  it.track.artist ++ " - " ++ it.track.title ++ " " ++ it.rating

/-- SongListItem.is_currently_played (songlist.py:225-231): true when the
state is loading, playing or paused. -/
def SongListItem.is_currently_played (it : SongListItem) : Bool :=
  it.state == States.loading || it.state == States.playing ||
    it.state == States.paused

/-- An entry of a walker: either an urwid.Text placeholder or a song item. -/
inductive Widget where
  | text (s : String)
  | song (it : SongListItem)
deriving DecidableEq, Repr

/-- Python substring test `needle in hay` (as used with lower-cased strings
in get_filtered_items). -/
def pySubstr (needle hay : String) : Bool :=
  decide (needle.toList <:+: hay.toList)

/-- The per-item filter predicate from get_filtered_items (songlist.py:476):
`self.filter_query.lower() in songitem.full_title.lower()`. -/
def matchesQuery (q : String) (it : SongListItem) : Bool :=
  pySubstr q.toLower it.full_title.toLower

/-- SongListBox.get_filtered_items (songlist.py:468-478): walk the snapshot
(tracks_walker), skip non-song entries, keep the song items whose full title
contains the query case-insensitively, in order. -/
def get_filtered_items (q : String) (tw : List Widget) : List SongListItem :=
  tw.filterMap fun w =>
    match w with
    | Widget.text _ => none
    | Widget.song it => if matchesQuery q it then some it else none

/-- The mutable state of a SongListBox (songlist.py:386-429) that the claims
touch: the unfiltered track list, the snapshot walker, the visible walker,
the filter texts, the shared hotkey_manager.filtering flag, whether the
filter panel row is shown, and the walker focus position. -/
structure SongListState where
  tracks : List Track
  tracks_walker : List Widget
  walker : List Widget
  filter_query : String
  filter_box : String
  filter_info : String
  filtering : Bool
  panel_shown : Bool
  focus : Nat
deriving Repr

/-- The filter prompt string (attribute filter_\x7bprefix\x7d of SongListBox,
songlist.py:404), value "> ". -/
def filter_lead : String := "> "

/-- SongListBox.start_filtering (songlist.py:431-445): guarded on the shared
filtering flag; shows the filter panel, clears the query, sets the flag,
snapshots the walker into tracks_walker and puts the prompt in the box. -/
def start_filtering (s : SongListState) : SongListState :=
  if s.filtering then s
  else
    { s with
      panel_shown := true
      filter_query := ""
      filtering := true
      tracks_walker := s.walker
      filter_box := filter_lead }

/-- SongListBox.end_filtering (songlist.py:480-492): no-op when the filter
box text is already empty; otherwise hides the panel, clears the flag and
both text rows, and restores the snapshot into the walker. -/
def end_filtering (s : SongListState) : SongListState :=
  if s.filter_box = "" then s
  else
    { s with
      panel_shown := false
      filtering := false
      filter_box := ""
      filter_info := ""
      walker := s.tracks_walker }

/-- update_indexes (songlist.py:690-695), recursed with an explicit position
counter: every song item at walker position i gets index i. (Python calls
set_index on every entry; a text placeholder is never present when this
runs.) -/
def update_indexes_from (i : Nat) : List Widget → List Widget
  | [] => []
  | Widget.text s :: ws => Widget.text s :: update_indexes_from (i + 1) ws
  | Widget.song it :: ws =>
      Widget.song { it with index := i } :: update_indexes_from (i + 1) ws

/-- SongListBox.update_indexes (songlist.py:690-695). -/
def update_indexes (ws : List Widget) : List Widget :=
  update_indexes_from 0 ws

/-- The common tail of perform_filtering (songlist.py:458-466): refresh the
box text, recompute the matches from the snapshot, show the match count,
replace the walker, focus position 0, and reindex on the library page. -/
def apply_filter (slug : String) (s : SongListState) : SongListState :=
  let ms := get_filtered_items s.filter_query s.tracks_walker
  let s1 :=
    { s with
      filter_box := filter_lead ++ s.filter_query
      filter_info := toString ms.length ++ " matches"
      walker := ms.map Widget.song
      focus := 0 }
  if slug = "library" then { s1 with walker := update_indexes s1.walker }
  else s1

/-- A key delivered to perform_filtering: the literal string "backspace" or
an ordinary character string appended to the query. -/
inductive FilterKey where
  | backspace
  | ch (c : String)
deriving DecidableEq, Repr

/-- SongListBox.perform_filtering (songlist.py:447-466): backspace on an
empty query exits filtering (and returns); otherwise drop or append one
piece of the query and recompute the visible collection. -/
def perform_filtering (slug : String) (k : FilterKey) (s : SongListState) :
    SongListState :=
  match k with
  | FilterKey.backspace =>
      if s.filter_query = "" then end_filtering s
      else apply_filter slug { s with filter_query := s.filter_query.dropRight 1 }
  | FilterKey.ch c => apply_filter slug { s with filter_query := s.filter_query ++ c }

/-- Whether a track equals the player's current track, as tested in
tracks_to_songlist (songlist.py:509): `current_track == track` with no
current track meaning no match. -/
def isCurrent (cur : Option Track) (t : Track) : Bool :=
  match cur with
  | none => false
  | some c => trackPyEq c t

/-- The item built for one track in the tracks_to_songlist loop
(songlist.py:508-510): a fresh item, set to loading when the track is the
player's current track. -/
def songitem_for (cur : Option Track) (t : Track) : SongListItem :=
  let it := mkSongListItem t
  if isCurrent cur t then { it with state := States.loading } else it

/-- SongListBox.tracks_to_songlist (songlist.py:500-536): one fresh
SongListItem per track in order; the items matching the current track are
set to loading; current_index is the first matching position (or none). -/
def tracks_to_songlist (cur : Option Track) (tracks : List Track) :
    List SongListItem × Option Nat :=
  (tracks.map (songitem_for cur), tracks.findIdx? (isCurrent cur))

/-- SongListBox.populate (songlist.py:652-662): store the track list,
rebuild the walker from tracks_to_songlist, reindex, then focus the current
track position if any, else position 0 when nonempty. -/
def populate (cur : Option Track) (s : SongListState) (tracks : List Track) :
    SongListState :=
  let p := tracks_to_songlist cur tracks
  let w := update_indexes (p.1.map Widget.song)
  { s with
    tracks := tracks
    walker := w
    focus :=
      match p.2 with
      | some i => i
      | none => if 1 ≤ w.length then 0 else s.focus }

/-- The player/service call chosen by item_activated: exactly one of the
four actions (toggle play/pause, jump to a queued track, append one track,
or replace the queue with a track list starting at an index). -/
inductive Action where
  | togglePlayPause
  | gotoTrack (t : Track)
  | appendToQueue (t : Track)
  | loadQueue (tracks : List Track) (idx : Nat)
deriving DecidableEq, Repr

/-- SongListBox.item_activated (songlist.py:545-562), the branch that picks
the player call: currently-played items toggle play/pause; else on the queue
page jump to the track; else on an append page or while filtering append the
track; else load the box's full track list at the item's index.
`pageAppend` is the current page's append attribute. -/
def item_activated (slug : String) (pageAppend : Bool) (filtering : Bool)
    (tracks : List Track) (it : SongListItem) : Action :=
  if it.is_currently_played then Action.togglePlayPause
  else if slug = "queue" then Action.gotoTrack it.track
  else if pageAppend || filtering then Action.appendToQueue it.track
  else Action.loadQueue tracks it.index

/-- The item-matching test of track_changed (songlist.py:625-626):
`songitem.track == track or (slug != 'queue' and songitem.track.id is
track.id)`. Python `==` on tracks is object identity and `is` on the id
attributes holds exactly when the ids agree (see trackPyEq). -/
def matchesTrack (slug : String) (it : SongListItem) (t : Track) : Bool :=
  trackPyEq it.track t || (decide (slug ≠ "queue") && it.track.id == t.id)

/-- The per-item state update of track_changed (songlist.py:622-630):
matching items become loading; non-matching items that are not idle are
reset to idle; idle non-matching items are untouched. -/
def track_changed_item (slug : String) (t : Track) (it : SongListItem) :
    SongListItem :=
  if matchesTrack slug it t then { it with state := States.loading }
  else if it.state ≠ States.idle then { it with state := States.idle }
  else it

/-- track_changed's walker traversal (songlist.py:622-630): text
placeholders are skipped, song items are updated per track_changed_item. -/
def track_changed_walker (slug : String) (t : Track) (ws : List Widget) :
    List Widget :=
  ws.map fun w =>
    match w with
    | Widget.text str => Widget.text str
    | Widget.song it => Widget.song (track_changed_item slug t it)

/-- track_changed's focus updates (songlist.py:628): set_focus(i) runs at
every matching position, so the final focus is the last matching position,
or the incoming focus when nothing matches. `i` is the position of the head
of the remaining list. -/
def track_changed_focus (slug : String) (t : Track) :
    Nat → Nat → List Widget → Nat
  | _, f, [] => f
  | i, f, Widget.text _ :: ws => track_changed_focus slug t (i + 1) f ws
  | i, f, Widget.song it :: ws =>
      track_changed_focus slug t (i + 1)
        (if matchesTrack slug it t then i else f) ws

/-- SongListBox.track_changed (songlist.py:617-630) as a state transformer. -/
def track_changed (slug : String) (t : Track) (s : SongListState) :
    SongListState :=
  { s with
    walker := track_changed_walker slug t s.walker
    focus := track_changed_focus slug t 0 s.focus s.walker }

/-- The intent signals a SongListItem can emit (songlist.py:80-88). -/
inductive ItemSignal where
  | activate
  | play
  | appendRequested
  | unappendRequested
  | clearQueue
  | stationRequested
  | contextMenuRequested
deriving DecidableEq, Repr

/-- SongListItem.unappend (songlist.py:206-211): emit unappend-requested
only when the item is not currently played. Returns the emitted signals. -/
def SongListItem.unappend (it : SongListItem) : List ItemSignal :=
  if it.is_currently_played then []
  else [ItemSignal.unappendRequested]

/-- Modelled from the spec: player.remove_from_queue (the player lives in
clay.playback, not under src/); "remove from queue(track)" removes the
track from the queue's membership. -/
def remove_from_queue (t : Track) (q : List Track) : List Track :=
  q.filter fun x => ! trackPyEq x t

/-- SongListBox.item_unappend_requested (songlist.py:575-581): the signal
handler calls player.remove_from_queue on the item's track. -/
def item_unappend_requested (it : SongListItem) (q : List Track) :
    List Track :=
  remove_from_queue it.track q

/-- The queue after an unappend on an item: the handler runs once per
emitted unappend-requested signal (songlist.py:206-211 with 575-581). -/
def unappend_effect (it : SongListItem) (q : List Track) : List Track :=
  it.unappend.foldl
    (fun acc sig =>
      match sig with
      | ItemSignal.unappendRequested => item_unappend_requested it acc
      | _ => acc)
    q

/-- The completion callback of add_to_my_library (songlist.py:321-330):
the produced user-visible notifications. `error` is the error object (none
when absent), `result` is the truthiness of the async result. -/
def on_add_to_my_library (result : Bool) (error : Option String) :
    List String :=
  if error.isSome || ! result then
    ["Error while adding track to my library: " ++
      (match error with
       | some e => e
       | none => "reason is unknown :(")]
  else ["Track added to library!"]

/-- The completion callback of remove_from_my_library (songlist.py:338-347). -/
def on_remove_from_my_library (result : Bool) (error : Option String) :
    List String :=
  if error.isSome || ! result then
    ["Error while removing track from my library: " ++
      (match error with
       | some e => e
       | none => "reason is unknown :(")]
  else ["Track removed from library!"]

/-- Modelled from the spec: the external album/playlist entity (clay.core,
not under src/): id, name, ordered track collection; albums are ordered by
a stable display key, modelled as `sortKey`. -/
structure Album where
  id : Nat
  name : String
  sortKey : Nat
  tracks : List Track
deriving Repr

/-- Modelled from the spec: AbstractListItem (clay.ui.urwid.pages.page, not
under src/) wraps one album entity for display. -/
structure AlbumListItem where
  album : Album
deriving Repr

/-- AlbumListBox.populate (album.py:19-26): iterate the mapping's keys
sorted by their album values (`sorted(albums, key=albums.__getitem__)`,
album comparison being by the display key), and build one item wrapping
each key's album. The mapping is given as its key list plus lookup. -/
def albumlist_populate (keys : List Nat) (get : Nat → Album) :
    List AlbumListItem :=
  (keys.mergeSort fun a b => decide ((get a).sortKey ≤ (get b).sortKey)).map
    fun k => { album := get k }

/-- Reindexing of one walker entry to a given position, used to describe
update_indexes pointwise (text entries written unchanged). -/
def reindex (n : Nat) : Widget → Widget
  | Widget.text s => Widget.text s
  | Widget.song it => Widget.song { it with index := n }

/-- Sample track used in witnesses. -/
def tA : Track :=
  { oid := 0, id := 10, title := "Alpha", artist := "Ann",
    album_name := "One", duration := 61000, rating := 5, explicit_rating := 1 }

/-- Sample track used in witnesses. -/
def tB : Track :=
  { oid := 1, id := 11, title := "Beta", artist := "Bob",
    album_name := "Two", duration := 2000, rating := 0, explicit_rating := 0 }

/-- Sample idle item over tA. -/
def itIdleA : SongListItem := mkSongListItem tA

/-- Sample idle item over tB. -/
def itIdleB : SongListItem := mkSongListItem tB

/-- Sample playing item over tA. -/
def itPlayingA : SongListItem :=
  { mkSongListItem tA with state := States.playing }

/-- Sample loading item over tA. -/
def itLoadingA : SongListItem :=
  { mkSongListItem tA with state := States.loading }

/-- Sample quiescent song-list box state used in witnesses. -/
def s0 : SongListState :=
  { tracks := [tA, tB]
    tracks_walker := []
    walker := [Widget.song itIdleA, Widget.song itIdleB]
    filter_query := ""
    filter_box := ""
    filter_info := ""
    filtering := false
    panel_shown := false
    focus := 0 }

/-- Sample state in filtering mode with a nonempty query, used for C8. -/
def s8 : SongListState :=
  { tracks := [tA, tB]
    tracks_walker := [Widget.song itIdleA, Widget.song itIdleB]
    walker := [Widget.song itIdleA]
    filter_query := "a"
    filter_box := "> a"
    filter_info := "1 matches"
    filtering := true
    panel_shown := true
    focus := 0 }

/-- C10: is_currently_played returns true exactly when the item's state is
loading, playing or paused; consequently unappend emits no removal-request
signal (and leaves the queue unchanged) also when the item is loading or
paused, not only when it is playing. -/
theorem c10_is_currently_played_iff (it : SongListItem) :
    (it.is_currently_played = true ↔
      (it.state = States.loading ∨ it.state = States.playing ∨
        it.state = States.paused)) ∧
    (it.state = States.loading ∨ it.state = States.paused →
      it.unappend = [] ∧ ∀ q : List Track, unappend_effect it q = q) := by
  cases h : it.state <;>
    simp [SongListItem.is_currently_played, SongListItem.unappend,
      unappend_effect, h]

/-- Witness for C10 at a concrete loading item. -/
theorem c10_witness :
    itLoadingA.unappend = [] ∧ unappend_effect itLoadingA [tA, tB] = [tA, tB] := by
  have h := (c10_is_currently_played_iff itLoadingA).2 (Or.inl rfl)
  exact ⟨h.1, h.2 [tA, tB]⟩

/-- C6: unappend on the item representing the currently playing track (an
item in playing state) emits no removal-request signal and leaves the
player queue unchanged. -/
theorem c6_unappend_playing_noop (it : SongListItem) (q : List Track)
    (h : it.state = States.playing) :
    it.unappend = [] ∧ unappend_effect it q = q := by
  simp [SongListItem.unappend, unappend_effect,
    SongListItem.is_currently_played, h]

/-- Witness for C6 at a concrete playing item. -/
theorem c6_witness :
    itPlayingA.unappend = [] ∧ unappend_effect itPlayingA [tA, tB] = [tA, tB] :=
  c6_unappend_playing_noop itPlayingA [tA, tB] rfl

/-- C7: each library add/remove completion produces exactly one
notification; with an error or a falsy result it carries the error text or,
without an error object, the generic fallback; on success it is the success
message. -/
theorem c7_library_callbacks (result : Bool) (error : Option String) :
    (on_add_to_my_library result error).length = 1 ∧
    (on_remove_from_my_library result error).length = 1 ∧
    (∀ e, error = some e →
      on_add_to_my_library result error =
        ["Error while adding track to my library: " ++ e] ∧
      on_remove_from_my_library result error =
        ["Error while removing track from my library: " ++ e]) ∧
    (error = none → result = false →
      on_add_to_my_library result error =
        ["Error while adding track to my library: reason is unknown :("] ∧
      on_remove_from_my_library result error =
        ["Error while removing track from my library: reason is unknown :("]) ∧
    (error = none → result = true →
      on_add_to_my_library result error = ["Track added to library!"] ∧
      on_remove_from_my_library result error = ["Track removed from library!"]) := by
  cases error <;> cases result <;>
    simp [on_add_to_my_library, on_remove_from_my_library]

/-- Witness for C7: a failing add with an error object and a successful
remove. -/
theorem c7_witness :
    on_add_to_my_library true (some "boom") =
      ["Error while adding track to my library: boom"] ∧
    on_remove_from_my_library true none = ["Track removed from library!"] :=
  ⟨((c7_library_callbacks true (some "boom")).2.2.1 "boom" rfl).1,
   ((c7_library_callbacks true none).2.2.2.2 rfl rfl).2⟩

/-- Helper: apply_filter never touches the box's track list. -/
theorem apply_filter_tracks (slug : String) (s : SongListState) :
    (apply_filter slug s).tracks = s.tracks := by
  by_cases h : slug = "library" <;> simp [apply_filter, h]

/-- Helper: end_filtering never touches the box's track list. -/
theorem end_filtering_tracks (s : SongListState) :
    (end_filtering s).tracks = s.tracks := by
  unfold end_filtering
  split <;> rfl

/-- Helper: perform_filtering never touches the box's track list. -/
theorem perform_filtering_tracks (slug : String) (k : FilterKey)
    (s : SongListState) : (perform_filtering slug k s).tracks = s.tracks := by
  cases k with
  | backspace =>
      by_cases h : s.filter_query = ""
      · simp only [perform_filtering, if_pos h]
        exact end_filtering_tracks s
      · simp only [perform_filtering, if_neg h]
        exact apply_filter_tracks slug _
  | ch c =>
      simp only [perform_filtering]
      exact apply_filter_tracks slug _

/-- C1: item_activated performs exactly one of four actions, decided in
this order: a currently-played (loading, playing or paused) item toggles
play/pause; else on the queue page playback jumps to the item's track; else
on an append page or while filtering the track is appended; else the queue
is replaced by the box's full track list at the item's index. The box's
track list is unfiltered: no filtering operation changes it. -/
theorem c1_item_activated_policy (slug : String) (pageAppend filtering : Bool)
    (ts : List Track) (it : SongListItem) (s : SongListState)
    (slug2 : String) (k : FilterKey) :
    (it.is_currently_played = true →
      item_activated slug pageAppend filtering ts it = Action.togglePlayPause) ∧
    (it.is_currently_played = false → slug = "queue" →
      item_activated slug pageAppend filtering ts it = Action.gotoTrack it.track) ∧
    (it.is_currently_played = false → slug ≠ "queue" →
      pageAppend = true ∨ filtering = true →
      item_activated slug pageAppend filtering ts it =
        Action.appendToQueue it.track) ∧
    (it.is_currently_played = false → slug ≠ "queue" → pageAppend = false →
      filtering = false →
      item_activated slug pageAppend filtering ts it =
        Action.loadQueue ts it.index) ∧
    (start_filtering s).tracks = s.tracks ∧
    (end_filtering s).tracks = s.tracks ∧
    (perform_filtering slug2 k s).tracks = s.tracks := by
  refine ⟨?_, ?_, ?_, ?_, ?_, ?_, ?_⟩
  · intro h; simp [item_activated, h]
  · intro h hq; simp [item_activated, h, hq]
  · intro h hq hp
    rcases hp with hp | hp <;> simp [item_activated, h, hq, hp]
  · intro h hq hp hf; simp [item_activated, h, hq, hp, hf]
  · unfold start_filtering; split <;> rfl
  · exact end_filtering_tracks s
  · exact perform_filtering_tracks slug2 k s

/-- Witness for C1: an idle item on a non-queue, non-append page outside
filtering mode replaces the queue at the item's index. -/
theorem c1_witness :
    item_activated "albums" false false [tA, tB] itIdleB =
      Action.loadQueue [tA, tB] itIdleB.index := by
  have h := c1_item_activated_policy "albums" false false [tA, tB] itIdleB s0
    "albums" FilterKey.backspace
  exact h.2.2.2.1 rfl (by decide) rfl rfl

/-- C4: end_filtering right after start_filtering (entered from a
non-filtering state, with no characters typed in between) restores exactly
the walker that was visible before start_filtering and leaves the filtering
flag false. -/
theorem c4_end_after_start (s : SongListState) (h : s.filtering = false) :
    (end_filtering (start_filtering s)).walker = s.walker ∧
    (end_filtering (start_filtering s)).filtering = false := by
  unfold start_filtering end_filtering
  simp [h, filter_lead]

/-- Witness for C4 at a concrete non-filtering state. -/
theorem c4_witness :
    (end_filtering (start_filtering s0)).walker = s0.walker ∧
    (end_filtering (start_filtering s0)).filtering = false :=
  c4_end_after_start s0 rfl

/-- C8 counterexample: a genuine end_filtering run (the guard passes and
the flag is cleared) that leaves filter._query untouched at "a" instead of
clearing it, refuting the claim that the query is cleared on filter end. -/
theorem c8_counterexample :
    (end_filtering s8).filtering = false ∧
    (end_filtering s8).filter_query = "a" := by
  constructor <;> rfl

/-- C8 amended: filter._query is cleared when filtering starts (when not
already in filtering mode); end_filtering leaves filter._query unchanged
and only clears the displayed filter box text. -/
theorem c8_filter_query_amended (s : SongListState) (h : s.filtering = false) :
    (start_filtering s).filter_query = "" ∧
    (end_filtering s).filter_query = s.filter_query ∧
    (end_filtering s).filter_box = "" := by
  refine ⟨?_, ?_, ?_⟩
  · simp [start_filtering, h]
  · unfold end_filtering; split <;> rfl
  · unfold end_filtering; split
    · assumption
    · rfl

/-- Witness for C8's amended claim at a concrete non-filtering state. -/
theorem c8_witness :
    (start_filtering s0).filter_query = "" ∧
    (end_filtering s0).filter_query = s0.filter_query ∧
    (end_filtering s0).filter_box = "" :=
  c8_filter_query_amended s0 rfl

/-- Helper: reindexing keeps the walker length. -/
theorem update_indexes_from_length (n : Nat) (ws : List Widget) :
    (update_indexes_from n ws).length = ws.length := by
  induction ws generalizing n with
  | nil => rfl
  | cons w ws ih => cases w <;> simp [update_indexes_from, ih]

/-- Helper: pointwise description of update_indexes_from. -/
theorem update_indexes_from_getElem? (n : Nat) (ws : List Widget) (i : Nat) :
    (update_indexes_from n ws)[i]? = (ws[i]?).map (reindex (n + i)) := by
  induction ws generalizing n i with
  | nil => simp [update_indexes_from]
  | cons w ws ih =>
      cases w with
      | text str =>
          cases i with
          | zero => simp [update_indexes_from, reindex]
          | succ i =>
              have h : n + 1 + i = n + (i + 1) := by omega
              simp only [update_indexes_from, List.getElem?_cons_succ]
              rw [ih (n + 1) i, h]
      | song it =>
          cases i with
          | zero => simp [update_indexes_from, reindex]
          | succ i =>
              have h : n + 1 + i = n + (i + 1) := by omega
              simp only [update_indexes_from, List.getElem?_cons_succ]
              rw [ih (n + 1) i, h]

/-- Helper: pointwise description of update_indexes. -/
theorem update_indexes_getElem? (ws : List Widget) (i : Nat) :
    (update_indexes ws)[i]? = (ws[i]?).map (reindex i) := by
  simpa using update_indexes_from_getElem? 0 ws i

/-- Helper: the item built for a track wraps exactly that track. -/
theorem songitem_for_track (cur : Option Track) (t : Track) :
    (songitem_for cur t).track = t := by
  unfold songitem_for mkSongListItem
  split <;> rfl

/-- C2: populate builds exactly one song item per input track, in input
order, and after the reindexing pass every item's index equals its 0-based
walker position. -/
theorem c2_populate_items (cur : Option Track) (s : SongListState)
    (ts : List Track) :
    (populate cur s ts).walker.length = ts.length ∧
    ∀ i, (h : i < ts.length) → ∃ it : SongListItem,
      (populate cur s ts).walker[i]? = some (Widget.song it) ∧
      it.track = ts[i] ∧ it.index = i := by
  have hw : (populate cur s ts).walker =
      update_indexes ((ts.map (songitem_for cur)).map Widget.song) := rfl
  constructor
  · rw [hw, update_indexes, update_indexes_from_length]
    simp
  · intro i h
    refine ⟨{ songitem_for cur ts[i] with index := i }, ?_, ?_, rfl⟩
    · rw [hw, update_indexes_getElem?]
      rw [List.getElem?_map, List.getElem?_map, List.getElem?_eq_getElem h]
      rfl
    · exact songitem_for_track cur ts[i]

/-- Witness for C2 at a concrete two-track populate. -/
theorem c2_witness :
    (populate none s0 [tA, tB]).walker.length = 2 ∧
    ∃ it : SongListItem,
      (populate none s0 [tA, tB]).walker[1]? = some (Widget.song it) ∧
      it.track = tB ∧ it.index = 1 := by
  have h := c2_populate_items none s0 [tA, tB]
  exact ⟨h.1, by simpa using h.2 1 (by decide)⟩

/-- Helper: the filtered collection is an order-preserving subsequence of
the snapshot it was computed from. -/
theorem get_filtered_items_sublist (q : String) (tw : List Widget) :
    ((get_filtered_items q tw).map Widget.song).Sublist tw := by
  induction tw with
  | nil => simp [get_filtered_items]
  | cons w tw ih =>
      cases w with
      | text str =>
          simp only [get_filtered_items, List.filterMap_cons]
          exact ih.cons _
      | song it =>
          by_cases h : matchesQuery q it = true
          · simp only [get_filtered_items, List.filterMap_cons, h, if_true,
              List.map_cons]
            exact ih.cons₂ _
          · simp only [get_filtered_items, List.filterMap_cons, h, if_false]
            exact ih.cons _

/-- Helper: membership in the filtered collection is membership in the
snapshot plus a matching title. -/
theorem get_filtered_items_mem (q : String) (tw : List Widget)
    (it : SongListItem) :
    it ∈ get_filtered_items q tw ↔
      (Widget.song it ∈ tw ∧ matchesQuery q it = true) := by
  unfold get_filtered_items
  rw [List.mem_filterMap]
  constructor
  · rintro ⟨w, hw, hfw⟩
    cases w with
    | text str => simp at hfw
    | song it2 =>
        by_cases h : matchesQuery q it2 = true
        · simp only [h, if_true, Option.some.injEq] at hfw
          subst hfw
          exact ⟨hw, h⟩
        · simp [h] at hfw
  · rintro ⟨h1, h2⟩
    refine ⟨Widget.song it, h1, ?_⟩
    simp [h2]

/-- Helper: filtering a walker made of song items is a plain List.filter. -/
theorem get_filtered_items_map_song (q : String) (l : List SongListItem) :
    get_filtered_items q (l.map Widget.song) = l.filter (matchesQuery q) := by
  induction l with
  | nil => rfl
  | cons it l ih =>
      simp only [get_filtered_items] at ih ⊢
      simp only [List.map_cons, List.filterMap_cons]
      by_cases h : matchesQuery q it = true
      · simp [h, ih, List.filter_cons]
      · simp [h, ih, List.filter_cons]

/-- C3: the filtered collection is an order-preserving subsequence of the
pre-filter snapshot; its members are exactly the snapshot's song items
whose derived title contains the query as a case-insensitive substring;
and re-filtering the result with the same query returns it unchanged. -/
theorem c3_filtering (q : String) (tw : List Widget) :
    ((get_filtered_items q tw).map Widget.song).Sublist tw ∧
    (∀ it : SongListItem, it ∈ get_filtered_items q tw ↔
      (Widget.song it ∈ tw ∧ matchesQuery q it = true)) ∧
    get_filtered_items q ((get_filtered_items q tw).map Widget.song) =
      get_filtered_items q tw := by
  refine ⟨get_filtered_items_sublist q tw, fun it => get_filtered_items_mem q tw it, ?_⟩
  rw [get_filtered_items_map_song]
  apply List.filter_eq_self.mpr
  intro it hit
  exact ((get_filtered_items_mem q tw it).mp hit).2

/-- Helper: the fields of a track_changed item update: track and index are
untouched, and the new state is loading on a match and idle otherwise. -/
theorem track_changed_item_fields (slug : String) (t : Track)
    (it : SongListItem) :
    (track_changed_item slug t it).track = it.track ∧
    (track_changed_item slug t it).index = it.index ∧
    (track_changed_item slug t it).state =
      (if matchesTrack slug it t then States.loading else States.idle) := by
  unfold track_changed_item
  by_cases h : matchesTrack slug it t = true <;>
    by_cases h2 : it.state = States.idle <;>
    simp [h, h2]

/-- Helper: the walker part of track_changed. -/
theorem track_changed_walker_eq (slug : String) (t : Track)
    (s : SongListState) :
    (track_changed slug t s).walker = track_changed_walker slug t s.walker :=
  rfl

/-- Helper: the focus part of track_changed. -/
theorem track_changed_focus_eq (slug : String) (t : Track)
    (s : SongListState) :
    (track_changed slug t s).focus =
      track_changed_focus slug t 0 s.focus s.walker :=
  rfl

/-- Helper: when no song entry of the walker matches, the focus fold
returns its start value. -/
theorem track_changed_focus_no_match (slug : String) (t : Track) :
    ∀ (ws : List Widget) (n f : Nat),
      (∀ (j : Nat) (it : SongListItem), ws[j]? = some (Widget.song it) →
        matchesTrack slug it t = false) →
      track_changed_focus slug t n f ws = f := by
  intro ws
  induction ws with
  | nil => intro n f _; rfl
  | cons w ws ih =>
      intro n f hnm
      have hnm2 : ∀ (j : Nat) (it : SongListItem), ws[j]? = some (Widget.song it) →
          matchesTrack slug it t = false := by
        intro j it hj
        exact hnm (j + 1) it (by simpa using hj)
      cases w with
      | text str =>
          unfold track_changed_focus
          exact ih (n + 1) f hnm2
      | song it0 =>
          have h0 : matchesTrack slug it0 t = false := hnm 0 it0 (by simp)
          unfold track_changed_focus
          rw [h0]
          simp only [Bool.false_eq_true, if_false]
          exact ih (n + 1) f hnm2

/-- Helper: when exactly one song entry matches, the focus fold lands on
its position (offset by the running counter). -/
theorem track_changed_focus_unique (slug : String) (t : Track) :
    ∀ (ws : List Widget) (n f k : Nat) (it : SongListItem),
      ws[k]? = some (Widget.song it) →
      matchesTrack slug it t = true →
      (∀ (j : Nat) (it2 : SongListItem), j ≠ k → ws[j]? = some (Widget.song it2) →
        matchesTrack slug it2 t = false) →
      track_changed_focus slug t n f ws = n + k := by
  intro ws
  induction ws with
  | nil => intro n f k it hk; simp at hk
  | cons w ws ih =>
      intro n f k it hk hm huniq
      cases w with
      | text str =>
          cases k with
          | zero => simp at hk
          | succ k =>
              have huniq2 : ∀ (j : Nat) (it2 : SongListItem), j ≠ k →
                  ws[j]? = some (Widget.song it2) →
                  matchesTrack slug it2 t = false := by
                intro j it2 hj hmem
                exact huniq (j + 1) it2 (by omega) (by simpa using hmem)
              unfold track_changed_focus
              have hrec := ih (n + 1) f k it (by simpa using hk) hm huniq2
              rw [hrec]
              omega
      | song it0 =>
          cases k with
          | zero =>
              have heq : it0 = it := by simpa using hk
              subst heq
              unfold track_changed_focus
              rw [hm]
              simp only [if_true]
              have hrest : ∀ (j : Nat) (it2 : SongListItem), ws[j]? = some (Widget.song it2) →
                  matchesTrack slug it2 t = false := by
                intro j it2 hj
                exact huniq (j + 1) it2 (by omega) (by simpa using hj)
              rw [track_changed_focus_no_match slug t ws (n + 1) n hrest]
              omega
          | succ k =>
              have h0 : matchesTrack slug it0 t = false :=
                huniq 0 it0 (by omega) (by simp)
              have huniq2 : ∀ (j : Nat) (it2 : SongListItem), j ≠ k →
                  ws[j]? = some (Widget.song it2) →
                  matchesTrack slug it2 t = false := by
                intro j it2 hj hmem
                exact huniq (j + 1) it2 (by omega) (by simpa using hmem)
              unfold track_changed_focus
              rw [h0]
              simp only [Bool.false_eq_true, if_false]
              have hrec := ih (n + 1) f k it (by simpa using hk) hm huniq2
              rw [hrec]
              omega

/-- C5: track_changed(T) sets every matching item to loading and resets
every non-matching item to idle (so any previously non-idle one is
demoted), preserving tracks, indexes and text placeholders; matching is by
object identity on the queue page and by track id on every other page
(given that identical objects carry identical attributes); and when the
match is unique the walker focus lands on that item. -/
theorem c5_track_changed (slug : String) (t : Track) (s : SongListState)
    (hwf : ∀ it : SongListItem, Widget.song it ∈ s.walker →
      it.track.oid = t.oid → it.track = t) :
    (∀ (i : Nat) (it : SongListItem), s.walker[i]? = some (Widget.song it) →
      ∃ it2 : SongListItem,
        (track_changed slug t s).walker[i]? = some (Widget.song it2) ∧
        it2.track = it.track ∧ it2.index = it.index ∧
        it2.state =
          (if matchesTrack slug it t then States.loading else States.idle)) ∧
    (∀ (i : Nat) (str : String), s.walker[i]? = some (Widget.text str) →
      (track_changed slug t s).walker[i]? = some (Widget.text str)) ∧
    (∀ it : SongListItem, Widget.song it ∈ s.walker →
      (slug = "queue" → matchesTrack slug it t = trackPyEq it.track t) ∧
      (slug ≠ "queue" →
        (matchesTrack slug it t = true ↔ it.track.id = t.id))) ∧
    (∀ (i : Nat) (it : SongListItem), s.walker[i]? = some (Widget.song it) →
      matchesTrack slug it t = true →
      (∀ (j : Nat) (it2 : SongListItem), j ≠ i → s.walker[j]? = some (Widget.song it2) →
        matchesTrack slug it2 t = false) →
      (track_changed slug t s).focus = i) := by
  refine ⟨?_, ?_, ?_, ?_⟩
  · intro i it hi
    refine ⟨track_changed_item slug t it, ?_, track_changed_item_fields slug t it⟩
    rw [track_changed_walker_eq]
    unfold track_changed_walker
    rw [List.getElem?_map, hi]
    rfl
  · intro i str hi
    rw [track_changed_walker_eq]
    unfold track_changed_walker
    rw [List.getElem?_map, hi]
    rfl
  · intro it hmem
    constructor
    · intro hq
      simp [matchesTrack, hq]
    · intro hq
      simp only [matchesTrack, hq, ne_eq, not_false_iff, decide_True,
        Bool.true_and, Bool.or_eq_true, beq_iff_eq, trackPyEq]
      constructor
      · rintro (h | h)
        · exact congrArg Track.id (hwf it hmem h)
        · exact h
      · intro h
        exact Or.inr h
  · intro i it hi hm huniq
    rw [track_changed_focus_eq]
    have h := track_changed_focus_unique slug t s.walker 0 s.focus i it hi hm huniq
    simpa using h

/-- Witness for C5: on a non-queue page, activating playback of tB focuses
the single item whose track id matches. -/
theorem c5_witness : (track_changed "albums" tB s0).focus = 1 := by
  have hwf : ∀ it : SongListItem, Widget.song it ∈ s0.walker →
      it.track.oid = tB.oid → it.track = tB := by
    intro it hmem hoid
    have hmem2 : it = itIdleA ∨ it = itIdleB := by
      simpa [s0] using hmem
    rcases hmem2 with rfl | rfl
    · exact absurd hoid (by decide)
    · rfl
  have huniq : ∀ (j : Nat) (it2 : SongListItem), j ≠ 1 → s0.walker[j]? = some (Widget.song it2) →
      matchesTrack "albums" it2 tB = false := by
    intro j it2 hne hj
    rcases j with _ | _ | j
    · have : itIdleA = it2 := by simpa [s0] using hj
      subst this
      decide
    · exact absurd rfl hne
    · simp [s0] at hj
  exact (c5_track_changed "albums" tB s0 hwf).2.2.2 1 itIdleB (by decide)
    (by decide) huniq

/-- C9: the album list box's populate yields one item per entry of the
album mapping (the item sequence wraps a permutation of the mapping's album
values) and the items appear in nondecreasing order of the albums' display
sort key. -/
theorem c9_albumlist_populate_sorted (keys : List Nat) (get : Nat → Album) :
    ((albumlist_populate keys get).map AlbumListItem.album).Perm
      (keys.map get) ∧
    ((albumlist_populate keys get).map AlbumListItem.album).Pairwise
      (fun a b => a.sortKey ≤ b.sortKey) := by
  have hmap : (albumlist_populate keys get).map AlbumListItem.album =
      (keys.mergeSort fun a b =>
        decide ((get a).sortKey ≤ (get b).sortKey)).map get := by
    unfold albumlist_populate
    rw [List.map_map]
    rfl
  constructor
  · rw [hmap]
    exact (List.mergeSort_perm keys _).map get
  · rw [hmap]
    have htrans : ∀ a b c : Nat,
        decide ((get a).sortKey ≤ (get b).sortKey) →
        decide ((get b).sortKey ≤ (get c).sortKey) →
        decide ((get a).sortKey ≤ (get c).sortKey) := by
      intro a b c h1 h2
      simp only [decide_eq_true_eq] at h1 h2 ⊢
      omega
    have htotal : ∀ a b : Nat,
        decide ((get a).sortKey ≤ (get b).sortKey) ||
          decide ((get b).sortKey ≤ (get a).sortKey) := by
      intro a b
      simp only [Bool.or_eq_true, decide_eq_true_eq]
      omega
    have hs := List.sorted_mergeSort htrans htotal keys
    exact hs.map get fun a b h => by
      simpa using h

end Clay
